import Mathlib

/-!
Verification of the Ubuntu network manager
(`platform/net/ubuntu_net_manager.go` of the vendored bosh-agent).

The Go code is shallowly embedded: the external collaborators (file system,
command runner, settings model) become explicit data and oracles in a `World`
record, the two public entry points `SetupDhcp` / `SetupManualNetworking`
become pure functions from a `World` and a desired-network list to an
`Outcome` (final file contents, the trace of restart commands issued, the
broadcast requests launched, and the returned error, if any).  Go's
`text/template` rendering of the four config templates is translated into
string-building functions that produce byte-identical output.
-/

set_option maxRecDepth 100000

namespace UbuntuNet

/-! ## String utilities -/

/-- The needle is a leading segment of the haystack (character lists). -/
def leadsWith : List Char → List Char → Bool
  | [], _ => true
  | _ :: _, [] => false
  | a :: as, b :: bs => a == b && leadsWith as bs

/-- Substring occurrence test on character lists. -/
def charsContain (needle : List Char) : List Char → Bool
  | [] => leadsWith needle []
  | b :: bs => leadsWith needle (b :: bs) || charsContain needle bs

/-- Deciding whether `needle` occurs in `hay`: `strContains hay needle` decides whether `needle` occurs in `hay`. -/
def strContains (hay needle : String) : Bool :=
  charsContain needle.data hay.data

/-- Drop leading newline characters. -/
def dropNewlines : List Char → List Char
  | [] => []
  | c :: cs => if c = '\n' then dropNewlines cs else c :: cs

/-- Modelled from the spec: `strings.Trim(s, "\n")` of the Go standard
library (not under src) — removes leading and trailing newline characters
("trims trailing newline" in the spec's words; the Go cutset trims both
ends). -/
def trimNewlines (s : String) : String :=
  String.mk ((dropNewlines ((dropNewlines s.data).reverse)).reverse)

/-- Modelled from the spec: `path/filepath.Base` of the Go standard library
(not under src) — the last element of the path after stripping trailing
slashes; "." for the empty path, "/" for an all-slash path. -/
def filepathBase (p : String) : String :=
  if p = "" then "."
  else
    let l := (p.data.reverse.dropWhile (fun c => c = '/')).reverse
    if l = [] then "/"
    else String.mk ((l.reverse.takeWhile (fun c => c != '/')).reverse)

/-- Modelled from the spec: `path/filepath.Join` of the Go standard library
(not under src), at the fidelity the claims need — the enumerated entry
paths are joined with an attribute name using a slash (the `Clean`
normalisation step is irrelevant here and omitted). -/
def joinPath (a b : String) : String :=
  if a = "" then b else a ++ "/" ++ b

/-- Concatenation of the strings produced for each element, in order.  This
is exactly what a `range` action of a Go template does with its body. -/
def concatMapStr (f : α → String) : List α → String
  | [] => ""
  | a :: as => f a ++ concatMapStr f as

/-- Modelled from the spec: `strings.Join` of the Go standard library (not
under src) — elements joined with the separator between them. -/
def goJoin (sep : String) : List String → String
  | [] => ""
  | [s] => s
  | s :: rest => s ++ sep ++ goJoin sep rest

/-! ## Data model -/

/-- Modelled from the spec: `boshsettings.Network` is not under src.  The
spec's NetworkSpec: IP address, netmask, optional gateway, hardware (MAC)
address, DNS server list, and default-purpose tags used to pick the
DNS-purpose network. -/
structure Network where
  ip : String
  netmask : String
  gateway : String
  mac : String
  dns : List String
  defaults : List String
deriving DecidableEq, Repr

/-- The zero value of `Network` (what a Go lookup miss produces). -/
def emptyNetwork : Network :=
  ⟨"", "", "", "", [], []⟩

/-- Modelled from the spec: `Networks.DefaultNetworkFor` is not under src.
The spec says the network tagged as the DNS-purpose network supplies the DNS
list, and that when none is found the list is treated as empty (not an
error): the first network tagged with the category, else the zero Network. -/
def defaultNetworkFor (networks : List Network) (category : String) : Network :=
  match networks.find? (fun n => n.defaults.contains category) with
  | some n => n
  | none => emptyNetwork

/-- Modelled from the spec: the `customNetwork` struct declaration is not
under src (only its positional construction at lines 159–165 and the fields
the template reads are).  Field order follows the call site: the embedded
Network, the resolved interface name, the computed network address, the
computed broadcast address, and the gateway-presence flag — the spec's
ResolvedNetwork. -/
structure CustomNetwork where
  network : Network
  interface : String
  networkIP : String
  broadcast : String
  hasDefaultGateway : Bool
deriving DecidableEq, Repr

/-! ## External collaborators -/

/-- World state and oracles: current file contents plus the behaviour of the
file system, command runner and injected failures.  `globNet` is the result
of `Glob "/sys/class/net/*"`; `readFile` and `fileExists` answer for the
per-entry attribute paths; `convergeErr` / `writeErr` / `cmdFail` inject
collaborator failures. -/
structure World where
  files : List (String × String)
  globNet : List String × Option String
  readFile : String → String × Option String
  fileExists : String → Bool
  convergeErr : String → Option String
  writeErr : String → Option String

/-- The command runner collaborator: for each command name and argument
list, the error it fails with (`none` = success).  The source receives it at
construction; only the error is observable here. -/
def CmdRunner : Type := String → List String → Option String

/-- Result of one apply call: final file contents, the restart commands
issued in order, the address-broadcast requests launched (each a list of
interface names), and the returned error. -/
structure Outcome where
  files : List (String × String)
  cmds : List (String × List String)
  broadcasts : List (List String)
  result : Option String
deriving DecidableEq, Repr

/-- Go map assignment `m[k] = v` on an association list: overwrite the
binding if the key is present, otherwise append it. -/
def assocSet : List (String × String) → String → String → List (String × String)
  | [], k, v => [(k, v)]
  | (k1, v1) :: m, k, v =>
    if k1 = k then (k, v) :: m else (k1, v1) :: assocSet m k v

/-- Modelled from the spec: `FileSystem.ConvergeFileContents` is not under
src.  The spec (§4.3): compare existing content byte-for-byte, write only if
different, and report whether a write occurred; injected storage failures
surface as the error. -/
def convergeFileContents (w : World) (path content : String) :
    World × Bool × Option String :=
  match w.convergeErr path with
  | some e => (w, false, some e)
  | none =>
    if w.files.lookup path = some content then (w, false, none)
    else ({ w with files := assocSet w.files path content }, true, none)

/-- Modelled from the spec: `FileSystem.WriteFile` is not under src — an
unconditional write, failing on injected storage failure. -/
def writeFileTo (w : World) (path content : String) : World × Option String :=
  match w.writeErr path with
  | some e => (w, some e)
  | none => ({ w with files := assocSet w.files path content }, none)

/-- Modelled from the spec: `CmdRunner.RunCommand` is not under src; only
the returned error is consumed by this file (and always discarded). -/
def runCommand (cmdRunner : CmdRunner) (name : String) (args : List String) : Option String :=
  cmdRunner name args

/-! ## CalculateNetworkAndBroadcast (collaborator) -/

/-- One bit-position AND of two bytes, summed over 8 bits below. -/
def byteAnd (a b : Nat) : Nat :=
  (List.range 8).foldl (fun acc i => acc + min (a / 2 ^ i % 2) (b / 2 ^ i % 2) * 2 ^ i) 0

/-- Compute `a OR (NOT b)` on bytes, summed over 8 bits. -/
def byteOrNot (a b : Nat) : Nat :=
  (List.range 8).foldl (fun acc i => acc + max (a / 2 ^ i % 2) (1 - b / 2 ^ i % 2) * 2 ^ i) 0

/-- Decimal value of a digit list. -/
def digitsToNat (l : List Char) : Nat :=
  l.foldl (fun acc c => acc * 10 + (c.toNat - 48)) 0

/-- Split a character list at the dots (components of a dotted quad);
`cur` holds the current component reversed. -/
def splitOnDot (cur : List Char) : List Char → List (List Char)
  | [] => [cur.reverse]
  | c :: cs => if c = '.' then cur.reverse :: splitOnDot [] cs else splitOnDot (c :: cur) cs

/-- Parse one dotted-quad component: nonempty, all digits, at most 255. -/
def parseOctet (l : List Char) : Option Nat :=
  if !l.isEmpty && l.all Char.isDigit && decide (digitsToNat l ≤ 255) then
    some (digitsToNat l)
  else none

/-- Parse a dotted-quad address into its four octets. -/
def parseQuad (s : String) : Option (List Nat) :=
  match (splitOnDot [] s.data).mapM parseOctet with
  | some l => if l.length = 4 then some l else none
  | none => none

/-- Render four octets as a dotted quad. -/
def formatQuad (l : List Nat) : String :=
  goJoin "." (l.map (fun n => toString n))

/-- Modelled from the spec: `boshsys.CalculateNetworkAndBroadcast` is not
under src.  The spec: compute the network and broadcast addresses from the
IP and netmask, failing on a malformed address/mask pair (fatal
ComputationError). -/
def calculateNetworkAndBroadcast (ipAddress netmask : String) :
    (String × String) × Option String :=
  match parseQuad ipAddress, parseQuad netmask with
  | some a, some m =>
    ((formatQuad (List.zipWith byteAnd a m),
      formatQuad (List.zipWith byteOrNot a m)), none)
  | _, _ => (("", ""), some "Invalid ip or netmask")

/-! ## Config rendering (translated from the source templates) -/

/-- The fixed preamble of `ubuntuDHCPConfigTemplate` (source lines 107–116):
everything before the conditional prepend directive. -/
def ubuntuDHCPConfigPreamble : String :=
  "# Generated by bosh-agent\n\noption rfc3442-classless-static-routes code 121 = array of unsigned integer 8;\n\nsend host-name \"<hostname>\";\n\nrequest subnet-mask, broadcast-address, time-offset, routers,\n\tdomain-name, domain-name-servers, domain-search, host-name,\n\tnetbios-name-servers, netbios-scope, interface-mtu,\n\trfc3442-classless-static-routes, ntp-servers;\n"

/-- Execution of `ubuntuDHCPConfigTemplate` on the joined DNS list: the `if`
action of the template treats the empty string as false, so the prepend
directive appears exactly when the joined list is nonempty. -/
def ubuntuDHCPConfig (dnsServersList : String) : String :=
  ubuntuDHCPConfigPreamble ++
    (if dnsServersList = "" then ""
     else "\nprepend domain-name-servers " ++ dnsServersList ++ ";") ++
    "\n"

/-- Execution of `ubuntuDhcpNetworkInterfacesTemplate` (source lines 305–311) on
the detected interface list. -/
def ubuntuDhcpNetworkInterfacesConfig (interfaces : List String) : String :=
  "# Generated by bosh-agent\nauto lo\niface lo inet loopback\n" ++
    concatMapStr (fun i => "\nauto " ++ i ++ "\niface " ++ i ++ " inet dhcp\n") interfaces

/-- One network stanza of `networkInterfacesTemplate` (source lines
198–205): the `range .Networks` body. -/
def netBlock (c : CustomNetwork) : String :=
  "\nauto " ++ c.interface ++ "\niface " ++ c.interface ++ " inet static\n    address " ++
    c.network.ip ++ "\n    network " ++ c.networkIP ++ "\n    netmask " ++
    c.network.netmask ++ "\n    broadcast " ++ c.broadcast ++ "\n" ++
    (if c.hasDefaultGateway then "    gateway " ++ c.network.gateway else "")

/-- The `networkInterfaceConfigArg` value the template is executed on. -/
structure NetworkInterfaceConfigArg where
  networks : List CustomNetwork
  hasDNSNameServers : Bool
  dnsServers : List String
deriving DecidableEq, Repr

/-- Execution of `networkInterfacesTemplate` (source lines 195–206) on the
argument record. -/
def networkInterfacesConfig (arg : NetworkInterfaceConfigArg) : String :=
  "# Generated by bosh-agent\nauto lo\niface lo inet loopback\n" ++
    concatMapStr netBlock arg.networks ++ "\n" ++
    (if arg.hasDNSNameServers then
      "dns-nameservers" ++ concatMapStr (fun d => " " ++ d) arg.dnsServers
     else "")

/-- Execution of `ubuntuResolvConfTemplate` (source lines 230–232) on the DNS
list. -/
def ubuntuResolvConf (dnsServers : List String) : String :=
  "# Generated by bosh-agent\n" ++
    concatMapStr (fun d => "nameserver " ++ d ++ "\n") dnsServers

/-! ## Interface detection (source lines 234–256 and 313–333) -/

/-- The loop of `detectNetworkInterfaces`: keep entries whose `device`
attribute exists, recording their base names in enumeration order. -/
def detectNetworkInterfacesLoop (w : World) (acc : List String) :
    List String → List String
  | [] => acc
  | p :: rest =>
    if w.fileExists (joinPath p "device") then
      detectNetworkInterfacesLoop w (acc ++ [filepathBase p]) rest
    else detectNetworkInterfacesLoop w acc rest

/-- Translation of `detectNetworkInterfaces` (source lines 313–333). -/
def detectNetworkInterfaces (w : World) : List String × Option String :=
  match w.globNet with
  | (_, some e) => ([], some ("Getting file list from /sys/class/net: " ++ e))
  | (filePaths, none) => (detectNetworkInterfacesLoop w [] filePaths, none)

/-- The loop of `detectMacAddresses`: read each entry's `address` attribute,
aborting on the first read failure with the map built so far. -/
def detectMacAddressesLoop (w : World) (acc : List (String × String)) :
    List String → List (String × String) × Option String
  | [] => (acc, none)
  | p :: rest =>
    match w.readFile (joinPath p "address") with
    | (_, some e) => (acc, some ("Reading mac address from file: " ++ e))
    | (contents, none) =>
      detectMacAddressesLoop w (assocSet acc (trimNewlines contents) (filepathBase p)) rest

/-- Translation of `detectMacAddresses` (source lines 234–256): maps hardware address to
interface name. -/
def detectMacAddresses (w : World) : List (String × String) × Option String :=
  match w.globNet with
  | (_, some e) => ([], some ("Getting file list from /sys/class/net: " ++ e))
  | (filePaths, none) => detectMacAddressesLoop w [] filePaths

/-! ## writeNetworkInterfaces (source lines 145–193) -/

/-- The loop over `networks` in `writeNetworkInterfaces` (source lines
153–167): compute network/broadcast (fatal on failure, returning the partial
list built so far) and resolve the interface name from the inventory by MAC
(the zero value "" on a lookup miss), with the gateway-presence flag set to
the literal `true` of line 164. -/
def resolveNetworksLoop (inv : List (String × String)) (acc : List CustomNetwork) :
    List Network → List CustomNetwork × Option String
  | [] => (acc, none)
  | n :: rest =>
    match calculateNetworkAndBroadcast n.ip n.netmask with
    | (_, some e) => (acc, some ("Calculating network and broadcast: " ++ e))
    | ((networkIP, broadcast), none) =>
      resolveNetworksLoop inv
        (acc ++ [⟨n, (inv.lookup n.mac).getD "", networkIP, broadcast, true⟩]) rest

/-- The template argument built at source lines 169–178: the source
initialises `HasDNSNameServers` to false and then unconditionally overwrites
it with `true` at line 177, taking the DNS list of the DNS-purpose
network. -/
def networkInterfaceValuesFor (modified : List CustomNetwork) (networks : List Network) :
    NetworkInterfaceConfigArg :=
  ⟨modified, true, (defaultNetworkFor networks "dns").dns⟩

/-- Result of `writeNetworkInterfaces`: the Go function returns the modified
networks, the changed flag and the error alongside the file-system effect. -/
structure WriteNetResult where
  world : World
  modifiedNetworks : List CustomNetwork
  written : Bool
  err : Option String

/-- The converge-write step of `writeNetworkInterfaces` (source lines
180–192): render the template for the resolved networks and converge-write
`/etc/network/interfaces`. -/
def writeNetInterfacesStep3 (w : World) (networks : List Network)
    (modified : List CustomNetwork) : WriteNetResult :=
  match convergeFileContents w "/etc/network/interfaces"
      (networkInterfacesConfig (networkInterfaceValuesFor modified networks)) with
  | (w1, _, some e) =>
    ⟨w1, modified, false, some ("Writing to /etc/network/interfaces: " ++ e)⟩
  | (w1, written, none) => ⟨w1, modified, written, none⟩

/-- The resolve step of `writeNetworkInterfaces` (source lines 153–167). -/
def writeNetInterfacesStep2 (w : World) (networks : List Network)
    (macAddresses : List (String × String)) : WriteNetResult :=
  match resolveNetworksLoop macAddresses [] networks with
  | (modified, some e) => ⟨w, modified, false, some e⟩
  | (modified, none) => writeNetInterfacesStep3 w networks modified

/-- Translation of `writeNetworkInterfaces` (source lines 145–193), composed of the steps
above in source order. -/
def writeNetworkInterfaces (w : World) (networks : List Network) : WriteNetResult :=
  match detectMacAddresses w with
  | (_, some e) => ⟨w, [], false, some ("Detecting mac addresses: " ++ e)⟩
  | (macAddresses, none) => writeNetInterfacesStep2 w networks macAddresses

/-! ## writeResolvConf and writeDhcpNetworkInterfaces -/

/-- Translation of `writeResolvConf` (source lines 208–228): renders the resolver template
for the DNS-purpose network and writes it unconditionally. -/
def writeResolvConf (w : World) (networks : List Network) : World × Option String :=
  match writeFileTo w "/etc/resolv.conf"
      (ubuntuResolvConf (defaultNetworkFor networks "dns").dns) with
  | (w1, some e) => (w1, some ("Writing to /etc/resolv.conf: " ++ e))
  | (w1, none) => (w1, none)

/-- The converge-write step of `writeDhcpNetworkInterfaces` (source lines
289–302): render the DHCP interfaces template for the detected interfaces
and converge-write it, ignoring the changed flag. -/
def writeDhcpStep2 (w : World) (interfaces : List String) : World × Option String :=
  match convergeFileContents w "/etc/network/interfaces"
      (ubuntuDhcpNetworkInterfacesConfig interfaces) with
  | (w1, _, some e) => (w1, some ("Writing to /etc/network/interfaces: " ++ e))
  | (w1, _, none) => (w1, none)

/-- Translation of `writeDhcpNetworkInterfaces` (source lines 283–303): detect physical
interfaces, then render and converge-write. -/
def writeDhcpNetworkInterfaces (w : World) : World × Option String :=
  match detectNetworkInterfaces w with
  | (_, some e) => (w, some ("Detecting network interfaces: " ++ e))
  | (interfaces, none) => writeDhcpStep2 w interfaces

/-! ## The two public entry points -/

/-- The argument list returned by `restartNetworkArguments` (source line
280). -/
def restartNetworkArguments : List String :=
  ["-a", "--no-loopback"]

/-- The full restart trace of `SetupDhcp` when the directive file changed:
the `ifup --version` probe of `restartNetworkArguments` (source line 275)
followed by `ifdown` and `ifup` over all non-loopback interfaces. -/
def dhcpRestartCmds : List (String × List String) :=
  [("ifup", ["--version"]),
   ("ifdown", restartNetworkArguments),
   ("ifup", restartNetworkArguments)]

/-- The directive-file step of `SetupDhcp` (source lines 55–102): render the
DHCP client config for the DNS-purpose network's servers, converge-write it,
and if it changed run the restart commands, whose failures are read from the
command runner and discarded exactly as the source logs and ignores them.
The address broadcast for the hardcoded `eth0` is recorded as launched on
every successful return; the completion channel is not modelled
(concurrency). -/
def setupDhcpStep2 (cmdRunner : CmdRunner) (networks : List Network) (w1 : World) : Outcome :=
  match convergeFileContents w1 "/etc/dhcp/dhclient.conf"
      (ubuntuDHCPConfig (goJoin ", " (defaultNetworkFor networks "dns").dns)) with
  | (w2, _, some e) =>
    ⟨w2.files, [], [], some ("Writing to /etc/dhcp/dhclient.conf: " ++ e)⟩
  | (w2, written, none) =>
    if written then
      let _ := runCommand cmdRunner "ifup" ["--version"]
      let _ := runCommand cmdRunner "ifdown" restartNetworkArguments
      let _ := runCommand cmdRunner "ifup" restartNetworkArguments
      ⟨w2.files, dhcpRestartCmds, [["eth0"]], none⟩
    else ⟨w2.files, [], [["eth0"]], none⟩

/-- Translation of `SetupDhcp` (source lines 47–103): write the DHCP interfaces file, then
the directive-file step above, in source order. -/
def SetupDhcp (cmdRunner : CmdRunner) (w : World) (networks : List Network) : Outcome :=
  match writeDhcpNetworkInterfaces w with
  | (w1, some e) =>
    ⟨w1.files, [], [], some ("Generating interfaces config from template: " ++ e)⟩
  | (w1, none) => setupDhcpStep2 cmdRunner networks w1

/-- The per-interface stop/start trace of `restartNetworkingInterfaces`
(source lines 258–272). -/
def manualRestartCmds (networks : List CustomNetwork) : List (String × List String) :=
  (networks.map (fun n =>
    [("service", ["network-interface", "stop", "INTERFACE=" ++ n.interface]),
     ("service", ["network-interface", "start", "INTERFACE=" ++ n.interface])])).flatten

/-- Modelled from the spec: `toInterfaceAddresses` is not under src; the
spec says broadcasting covers the full set of ResolvedNetworks' interfaces,
so a broadcast request is recorded as the list of resolved interface
names. -/
def manualBroadcastAddresses (networks : List CustomNetwork) : List String :=
  networks.map (fun n => n.interface)

/-- Translation of `SetupManualNetworking` (source lines 121–143).  Restart-command
failures are read from the oracle and discarded as the source does; the
background broadcast over the resolved interfaces is recorded as launched on
every successful return. -/
def SetupManualNetworking (cmdRunner : CmdRunner) (w : World) (networks : List Network) :
    Outcome :=
  match writeNetworkInterfaces w networks with
  | ⟨w1, _, _, some e⟩ =>
    ⟨w1.files, [], [], some ("Writing network interfaces: " ++ e)⟩
  | ⟨w1, modifiedNetworks, written, none⟩ =>
    if written then
      let _ := modifiedNetworks.map (fun n =>
        (runCommand cmdRunner "service" ["network-interface", "stop", "INTERFACE=" ++ n.interface],
         runCommand cmdRunner "service" ["network-interface", "start", "INTERFACE=" ++ n.interface]))
      ⟨w1.files, manualRestartCmds modifiedNetworks,
        [manualBroadcastAddresses modifiedNetworks], none⟩
    else
      ⟨w1.files, [], [manualBroadcastAddresses modifiedNetworks], none⟩

/-! ## Helper lemmas: substring search -/

theorem leadsWith_append (n y : List Char) : leadsWith n (n ++ y) = true := by
  induction n with
  | nil => rfl
  | cons a as ih => simp [leadsWith, ih]

theorem charsContain_append_left (n x s : List Char) (h : charsContain n s = true) :
    charsContain n (x ++ s) = true := by
  induction x with
  | nil => simpa using h
  | cons c x ih => simp [charsContain, ih]

theorem charsContain_self (n y : List Char) : charsContain n (n ++ y) = true := by
  cases n with
  | nil => cases y <;> simp [charsContain, leadsWith]
  | cons a as =>
    have h := leadsWith_append (a :: as) y
    rw [List.cons_append] at h
    simp [charsContain, h]

theorem strData_append (a b : String) : (a ++ b).data = a.data ++ b.data := rfl

theorem strContains_append_right (a b t : String) (h : strContains b t = true) :
    strContains (a ++ b) t = true := by
  unfold strContains at *
  rw [strData_append]
  exact charsContain_append_left _ _ _ h

theorem strContains_here (t b : String) : strContains (t ++ b) t = true := by
  unfold strContains
  rw [strData_append]
  exact charsContain_self _ _

theorem strContains_mid (a t b : String) : strContains (a ++ (t ++ b)) t = true :=
  strContains_append_right _ _ _ (strContains_here _ _)

/-! ## Helper lemmas: goJoin -/

theorem string_ne_empty_of_data (s : String) (h : s.data ≠ []) : s ≠ "" := by
  intro hs
  exact h (by rw [hs])

theorem append_ne_empty_left (a b : String) (h : a ≠ "") : a ++ b ≠ "" := by
  apply string_ne_empty_of_data
  rw [strData_append]
  intro hd
  rcases List.append_eq_nil.mp hd with ⟨h1, _⟩
  exact h (String.ext (by rw [h1]))

theorem goJoin_ne_empty (sep d : String) (rest : List String) (h : d ≠ "") :
    goJoin sep (d :: rest) ≠ "" := by
  cases rest with
  | nil => simpa [goJoin] using h
  | cons r rs =>
    show d ++ sep ++ goJoin sep (r :: rs) ≠ ""
    exact append_ne_empty_left _ _ (append_ne_empty_left _ _ h)

/-! ## Helper lemmas: association-list update -/

theorem lookup_assocSet_self (m : List (String × String)) (k v : String) :
    (assocSet m k v).lookup k = some v := by
  induction m with
  | nil => rw [assocSet, List.lookup_cons, beq_self_eq_true]
  | cons kv m ih =>
    cases kv with
    | mk k1 v1 =>
      rw [assocSet]
      by_cases h : k1 = k
      · rw [if_pos h, List.lookup_cons, beq_self_eq_true]
      · rw [if_neg h, List.lookup_cons, beq_eq_false_iff_ne.mpr (Ne.symm h)]
        exact ih

theorem lookup_assocSet_ne (m : List (String × String)) (k v q : String) (h : q ≠ k) :
    (assocSet m k v).lookup q = m.lookup q := by
  induction m with
  | nil => rw [assocSet, List.lookup_cons, beq_eq_false_iff_ne.mpr h]
  | cons kv m ih =>
    cases kv with
    | mk k1 v1 =>
      rw [assocSet]
      by_cases h1 : k1 = k
      · subst h1
        rw [if_pos rfl, List.lookup_cons, List.lookup_cons, beq_eq_false_iff_ne.mpr h]
      · rw [if_neg h1, List.lookup_cons, List.lookup_cons]
        cases hbeq : q == k1 with
        | true => rfl
        | false => exact ih

theorem length_assocSet (m : List (String × String)) (k v : String) :
    (assocSet m k v).length ≤ m.length + 1 := by
  induction m with
  | nil => simp [assocSet]
  | cons kv m ih =>
    cases kv with
    | mk k1 v1 =>
      rw [assocSet]
      by_cases h : k1 = k
      · rw [if_pos h]
        simp only [List.length_cons]
        omega
      · rw [if_neg h]
        simp only [List.length_cons]
        omega

/-! ## Derived descriptions of the detection loops -/

/-- The device-descriptor test of `detectNetworkInterfaces` for one entry. -/
def hasDevice (w : World) (p : String) : Bool :=
  w.fileExists (joinPath p "device")

/-- Whether the hardware-address read of one enumerated entry succeeds. -/
def readOk (w : World) (p : String) : Bool :=
  ((w.readFile (joinPath p "address")).2).isNone

/-- The trimmed hardware address one enumerated entry reports. -/
def macOf (w : World) (p : String) : String :=
  trimNewlines (w.readFile (joinPath p "address")).1

/-- The inventory accumulated over a path list: Go's map assignment folded
left over the enumeration. -/
def macFold (w : World) (acc : List (String × String)) (ps : List String) :
    List (String × String) :=
  ps.foldl (fun a p => assocSet a (macOf w p) (filepathBase p)) acc

theorem detectLoop_eq (w : World) (ps : List String) : ∀ acc,
    detectNetworkInterfacesLoop w acc ps
      = acc ++ (ps.filter (hasDevice w)).map filepathBase := by
  induction ps with
  | nil => intro acc; simp [detectNetworkInterfacesLoop]
  | cons p rest ih =>
    intro acc
    rw [detectNetworkInterfacesLoop]
    by_cases h : w.fileExists (joinPath p "device")
    · rw [if_pos h, ih, List.filter_cons]
      simp [hasDevice, h]
    · rw [if_neg h, ih, List.filter_cons]
      simp [hasDevice, h]

theorem macLoop_fst (w : World) (ps : List String) : ∀ acc,
    (detectMacAddressesLoop w acc ps).1 = macFold w acc (ps.takeWhile (readOk w)) := by
  induction ps with
  | nil => intro acc; rfl
  | cons p rest ih =>
    intro acc
    cases hr : w.readFile (joinPath p "address") with
    | mk contents err =>
      cases err with
      | none =>
        have hok : readOk w p = true := by simp [readOk, hr]
        rw [List.takeWhile_cons, hok]
        simp only [detectMacAddressesLoop, hr, ih, if_true]
        simp [macFold, macOf, hr]
      | some e =>
        have hok : readOk w p = false := by simp [readOk, hr]
        rw [List.takeWhile_cons, hok]
        simp only [detectMacAddressesLoop, hr]
        rfl

theorem macLoop_snd_none (w : World) (ps : List String) : ∀ acc,
    ((detectMacAddressesLoop w acc ps).2 = none ↔ ∀ p ∈ ps, readOk w p = true) := by
  induction ps with
  | nil => intro acc; simp [detectMacAddressesLoop]
  | cons p rest ih =>
    intro acc
    cases hr : w.readFile (joinPath p "address") with
    | mk contents err =>
      cases err with
      | none =>
        have hok : readOk w p = true := by simp [readOk, hr]
        simp only [detectMacAddressesLoop, hr]
        rw [ih]
        simp [hok]
      | some e =>
        have hok : readOk w p = false := by simp [readOk, hr]
        simp only [detectMacAddressesLoop, hr]
        constructor
        · intro hcontra; simp at hcontra
        · intro hall
          have := hall p (by simp)
          rw [this] at hok
          simp at hok

theorem macFold_lookup (w : World) (ps : List String) : ∀ acc mac,
    (macFold w acc ps).lookup mac
      = ((ps.reverse.find? (fun p => macOf w p == mac)).map filepathBase).or
          (acc.lookup mac) := by
  induction ps with
  | nil => intro acc mac; simp [macFold]
  | cons p rest ih =>
    intro acc mac
    have hstep : macFold w acc (p :: rest)
        = macFold w (assocSet acc (macOf w p) (filepathBase p)) rest := rfl
    rw [hstep, ih, List.reverse_cons, List.find?_append]
    cases hf : rest.reverse.find? (fun q => macOf w q == mac) with
    | some q => simp [hf]
    | none =>
      by_cases hm : macOf w p = mac
      · subst hm
        simp [List.find?, lookup_assocSet_self]
      · have hbeq : (macOf w p == mac) = false := beq_eq_false_iff_ne.mpr hm
        simp [List.find?, hbeq, lookup_assocSet_ne _ _ _ _ (Ne.symm hm)]

theorem macFold_length (w : World) (ps : List String) : ∀ acc,
    (macFold w acc ps).length ≤ acc.length + ps.length := by
  induction ps with
  | nil => intro acc; simp [macFold]
  | cons p rest ih =>
    intro acc
    have h1 := length_assocSet acc (macOf w p) (filepathBase p)
    have h2 := ih (assocSet acc (macOf w p) (filepathBase p))
    have hstep : macFold w acc (p :: rest)
        = macFold w (assocSet acc (macOf w p) (filepathBase p)) rest := rfl
    rw [hstep]
    simp only [List.length_cons]
    omega

/-! ## Derived descriptions of the resolve loop -/

/-- Whether network/broadcast computation succeeds for a spec. -/
def calcOk (n : Network) : Bool :=
  ((calculateNetworkAndBroadcast n.ip n.netmask).2).isNone

/-- The ResolvedNetwork built for one spec when the computation succeeds. -/
def resolveOne (inv : List (String × String)) (n : Network) : CustomNetwork :=
  ⟨n, (inv.lookup n.mac).getD "",
    (calculateNetworkAndBroadcast n.ip n.netmask).1.1,
    (calculateNetworkAndBroadcast n.ip n.netmask).1.2, true⟩

theorem resolveLoop_ok (inv : List (String × String)) (nets : List Network)
    (h : ∀ n ∈ nets, calcOk n = true) : ∀ acc,
    resolveNetworksLoop inv acc nets = (acc ++ nets.map (resolveOne inv), none) := by
  induction nets with
  | nil => intro acc; simp [resolveNetworksLoop]
  | cons n rest ih =>
    intro acc
    have hn : calcOk n = true := h n (by simp)
    cases hc : calculateNetworkAndBroadcast n.ip n.netmask with
    | mk nb err =>
      cases nb with
      | mk networkIP broadcast =>
        cases err with
        | some e => rw [calcOk, hc] at hn; simp at hn
        | none =>
          simp only [resolveNetworksLoop, hc]
          rw [ih (fun m hm => h m (by simp [hm]))]
          simp [resolveOne, hc]

theorem resolveLoop_flag (inv : List (String × String)) (nets : List Network) :
    ∀ acc, (∀ c ∈ acc, c.hasDefaultGateway = true) →
    ∀ c ∈ (resolveNetworksLoop inv acc nets).1, c.hasDefaultGateway = true := by
  induction nets with
  | nil => intro acc hacc; simpa [resolveNetworksLoop] using hacc
  | cons n rest ih =>
    intro acc hacc
    cases hc : calculateNetworkAndBroadcast n.ip n.netmask with
    | mk nb err =>
      cases nb with
      | mk networkIP broadcast =>
        cases err with
        | some e => simpa [resolveNetworksLoop, hc] using hacc
        | none =>
          simp only [resolveNetworksLoop, hc]
          apply ih
          intro c hc2
          rcases List.mem_append.mp hc2 with hmem | hmem
          · exact hacc c hmem
          · simp at hmem
            rw [hmem]

/-! ## Pipeline master lemmas -/

theorem takeWhile_of_all {α} (p : α → Bool) (l : List α) (h : ∀ x ∈ l, p x = true) :
    l.takeWhile p = l := by
  induction l with
  | nil => rfl
  | cons a l ih =>
    rw [List.takeWhile_cons, h a (by simp)]
    simp only [if_true]
    rw [ih (fun x hx => h x (by simp [hx]))]

/-- The rendered DHCP interfaces content for the given enumeration. -/
def dhcpIfacesContent (w : World) (paths : List String) : String :=
  ubuntuDhcpNetworkInterfacesConfig ((paths.filter (hasDevice w)).map filepathBase)

/-- The file map after a successful converge: unchanged when the target
already holds the content, else updated. -/
def convergedFiles (files : List (String × String)) (path content : String) :
    List (String × String) :=
  if files.lookup path = some content then files else assocSet files path content

theorem convergedFiles_lookup_self (files : List (String × String)) (path content : String) :
    (convergedFiles files path content).lookup path = some content := by
  unfold convergedFiles
  split
  · rename_i h; exact h
  · exact lookup_assocSet_self _ _ _

theorem convergedFiles_lookup_ne (files : List (String × String)) (path content q : String)
    (h : q ≠ path) : (convergedFiles files path content).lookup q = files.lookup q := by
  unfold convergedFiles
  split
  · rfl
  · exact lookup_assocSet_ne _ _ _ _ h

theorem convergedFiles_already (files : List (String × String)) (path content : String)
    (h : files.lookup path = some content) : convergedFiles files path content = files := by
  unfold convergedFiles
  rw [if_pos h]

theorem converge_ok (w : World) (path content : String)
    (hc : w.convergeErr path = none) :
    convergeFileContents w path content
      = if w.files.lookup path = some content
        then (w, false, none)
        else ({ w with files := assocSet w.files path content }, true, none) := by
  unfold convergeFileContents
  rw [hc]

theorem converge_err_world (w : World) (path content : String)
    (h : (convergeFileContents w path content).2.2.isSome = true) :
    (convergeFileContents w path content).1 = w := by
  cases he : w.convergeErr path with
  | some e =>
    unfold convergeFileContents
    rw [he]
  | none =>
    rw [converge_ok _ _ _ he] at h
    exfalso
    split at h <;> simp at h

/-- The DHCP directive content rendered for a desired-network set. -/
def dhclientContent (networks : List Network) : String :=
  ubuntuDHCPConfig (goJoin ", " (defaultNetworkFor networks "dns").dns)

theorem writeDhcpStep2_ok (w : World) (interfaces : List String)
    (hc : w.convergeErr "/etc/network/interfaces" = none) :
    writeDhcpStep2 w interfaces
      = ({ w with files := (convergedFiles w.files "/etc/network/interfaces"
            (ubuntuDhcpNetworkInterfacesConfig interfaces)) }, none) := by
  unfold writeDhcpStep2
  rw [converge_ok _ _ _ hc]
  unfold convergedFiles
  by_cases hl : w.files.lookup "/etc/network/interfaces"
      = some (ubuntuDhcpNetworkInterfacesConfig interfaces)
  · rw [if_pos hl, if_pos hl]
  · rw [if_neg hl, if_neg hl]

theorem writeDhcp_ok (w : World) (paths : List String)
    (hg : w.globNet = (paths, none))
    (hc : w.convergeErr "/etc/network/interfaces" = none) :
    writeDhcpNetworkInterfaces w
      = ({ w with files := (convergedFiles w.files "/etc/network/interfaces"
            (dhcpIfacesContent w paths)) }, none) := by
  have h1 : writeDhcpNetworkInterfaces w
      = writeDhcpStep2 w (detectNetworkInterfacesLoop w [] paths) := by
    unfold writeDhcpNetworkInterfaces detectNetworkInterfaces
    rw [hg]
  rw [h1, detectLoop_eq, List.nil_append, writeDhcpStep2_ok _ _ hc]
  rfl

theorem setupDhcpStep2_ok (cr : CmdRunner) (networks : List Network) (w1 : World)
    (hc2 : w1.convergeErr "/etc/dhcp/dhclient.conf" = none) :
    setupDhcpStep2 cr networks w1
      = if w1.files.lookup "/etc/dhcp/dhclient.conf" = some (dhclientContent networks)
        then ⟨w1.files, [], [["eth0"]], none⟩
        else ⟨assocSet w1.files "/etc/dhcp/dhclient.conf" (dhclientContent networks),
              dhcpRestartCmds, [["eth0"]], none⟩ := by
  unfold setupDhcpStep2 dhclientContent
  rw [converge_ok _ _ _ hc2]
  by_cases hl : w1.files.lookup "/etc/dhcp/dhclient.conf"
      = some (ubuntuDHCPConfig (goJoin ", " (defaultNetworkFor networks "dns").dns))
  · rw [if_pos hl, if_pos hl]
    rfl
  · rw [if_neg hl, if_neg hl]
    rfl

theorem setupDhcp_ok (cr : CmdRunner) (w : World) (networks : List Network)
    (paths : List String)
    (hg : w.globNet = (paths, none))
    (hc1 : w.convergeErr "/etc/network/interfaces" = none)
    (hc2 : w.convergeErr "/etc/dhcp/dhclient.conf" = none) :
    SetupDhcp cr w networks
      = (if (convergedFiles w.files "/etc/network/interfaces"
              (dhcpIfacesContent w paths)).lookup "/etc/dhcp/dhclient.conf"
            = some (dhclientContent networks)
         then ⟨convergedFiles w.files "/etc/network/interfaces" (dhcpIfacesContent w paths),
               [], [["eth0"]], none⟩
         else ⟨assocSet (convergedFiles w.files "/etc/network/interfaces"
                 (dhcpIfacesContent w paths)) "/etc/dhcp/dhclient.conf" (dhclientContent networks),
               dhcpRestartCmds, [["eth0"]], none⟩) := by
  have h1 : SetupDhcp cr w networks
      = setupDhcpStep2 cr networks
          ({ w with files := (convergedFiles w.files "/etc/network/interfaces"
              (dhcpIfacesContent w paths)) }) := by
    unfold SetupDhcp
    rw [writeDhcp_ok w paths hg hc1]
  rw [h1, setupDhcpStep2_ok cr networks
    ({ w with files := (convergedFiles w.files "/etc/network/interfaces"
        (dhcpIfacesContent w paths)) }) hc2]

theorem setupDhcpStep2_err (cr : CmdRunner) (networks : List Network) (w1 : World)
    (h : (setupDhcpStep2 cr networks w1).result.isSome = true) :
    (setupDhcpStep2 cr networks w1).cmds = []
      ∧ (setupDhcpStep2 cr networks w1).broadcasts = []
      ∧ (setupDhcpStep2 cr networks w1).files = w1.files := by
  unfold setupDhcpStep2 at h ⊢
  cases hcv : convergeFileContents w1 "/etc/dhcp/dhclient.conf"
      (ubuntuDHCPConfig (goJoin ", " (defaultNetworkFor networks "dns").dns)) with
  | mk w2 rest =>
    rw [hcv] at h
    cases rest with
    | mk written err2 =>
      cases err2 with
      | some e =>
        have hw2 : w2 = w1 := by
          have hcw := converge_err_world w1 "/etc/dhcp/dhclient.conf"
            (ubuntuDHCPConfig (goJoin ", " (defaultNetworkFor networks "dns").dns))
            (by rw [hcv]; rfl)
          rw [hcv] at hcw
          exact hcw
        refine ⟨rfl, rfl, ?_⟩
        simp only [hw2]
      | none =>
        exfalso
        cases written <;> simp at h

theorem setupDhcp_err (cr : CmdRunner) (w : World) (networks : List Network)
    (h : (SetupDhcp cr w networks).result.isSome = true) :
    (SetupDhcp cr w networks).cmds = [] ∧ (SetupDhcp cr w networks).broadcasts = []
      ∧ (SetupDhcp cr w networks).files = (writeDhcpNetworkInterfaces w).1.files := by
  cases hw : writeDhcpNetworkInterfaces w with
  | mk w1 err =>
    cases err with
    | some e =>
      have heq : SetupDhcp cr w networks
          = ⟨w1.files, [], [], some ("Generating interfaces config from template: " ++ e)⟩ := by
        unfold SetupDhcp
        rw [hw]
      rw [heq]
      exact ⟨rfl, rfl, rfl⟩
    | none =>
      have heq : SetupDhcp cr w networks = setupDhcpStep2 cr networks w1 := by
        unfold SetupDhcp
        rw [hw]
      rw [heq] at h ⊢
      exact setupDhcpStep2_err cr networks w1 h

/-! ## Manual-networking master lemmas -/

/-- The hardware-address inventory a fully successful enumeration yields. -/
def invOf (w : World) (paths : List String) : List (String × String) :=
  macFold w [] paths

/-- The ResolvedNetworks a successful resolve pass yields. -/
def manualModified (w : World) (paths : List String) (networks : List Network) :
    List CustomNetwork :=
  networks.map (resolveOne (invOf w paths))

/-- The static interfaces content rendered for a desired-network set. -/
def manualContent (w : World) (paths : List String) (networks : List Network) : String :=
  networkInterfacesConfig
    ⟨manualModified w paths networks, true, (defaultNetworkFor networks "dns").dns⟩

theorem detectMac_ok (w : World) (paths : List String)
    (hg : w.globNet = (paths, none))
    (hr : ∀ p ∈ paths, readOk w p = true) :
    detectMacAddresses w = (invOf w paths, none) := by
  have hfst : (detectMacAddressesLoop w [] paths).1 = invOf w paths := by
    rw [macLoop_fst, takeWhile_of_all _ _ hr]
    rfl
  have hsnd : (detectMacAddressesLoop w [] paths).2 = none :=
    (macLoop_snd_none w paths []).mpr hr
  have hdet : detectMacAddressesLoop w [] paths = (invOf w paths, none) := by
    rw [← hfst, ← hsnd]
  unfold detectMacAddresses
  rw [hg]
  exact hdet

theorem writeNetStep3_ok (w : World) (networks : List Network)
    (modified : List CustomNetwork)
    (hc : w.convergeErr "/etc/network/interfaces" = none) :
    writeNetInterfacesStep3 w networks modified
      = if w.files.lookup "/etc/network/interfaces"
            = some (networkInterfacesConfig (networkInterfaceValuesFor modified networks))
        then ⟨w, modified, false, none⟩
        else ⟨{ w with files := (assocSet w.files "/etc/network/interfaces"
                  (networkInterfacesConfig (networkInterfaceValuesFor modified networks))) },
              modified, true, none⟩ := by
  unfold writeNetInterfacesStep3
  rw [converge_ok _ _ _ hc]
  by_cases hl : w.files.lookup "/etc/network/interfaces"
      = some (networkInterfacesConfig (networkInterfaceValuesFor modified networks))
  · rw [if_pos hl, if_pos hl]
  · rw [if_neg hl, if_neg hl]

theorem writeNet_ok (w : World) (networks : List Network) (paths : List String)
    (hg : w.globNet = (paths, none))
    (hr : ∀ p ∈ paths, readOk w p = true)
    (hcalc : ∀ n ∈ networks, calcOk n = true)
    (hc : w.convergeErr "/etc/network/interfaces" = none) :
    writeNetworkInterfaces w networks
      = if w.files.lookup "/etc/network/interfaces" = some (manualContent w paths networks)
        then ⟨w, manualModified w paths networks, false, none⟩
        else ⟨{ w with files := (assocSet w.files "/etc/network/interfaces"
                  (manualContent w paths networks)) },
              manualModified w paths networks, true, none⟩ := by
  have h1 : writeNetworkInterfaces w networks
      = writeNetInterfacesStep2 w networks (invOf w paths) := by
    unfold writeNetworkInterfaces
    rw [detectMac_ok w paths hg hr]
  have h2 : writeNetInterfacesStep2 w networks (invOf w paths)
      = writeNetInterfacesStep3 w networks (manualModified w paths networks) := by
    unfold writeNetInterfacesStep2
    rw [resolveLoop_ok _ _ hcalc, List.nil_append]
    rfl
  rw [h1, h2, writeNetStep3_ok w networks _ hc]
  rfl

theorem setupManual_ok (cr : CmdRunner) (w : World) (networks : List Network)
    (paths : List String)
    (hg : w.globNet = (paths, none))
    (hr : ∀ p ∈ paths, readOk w p = true)
    (hcalc : ∀ n ∈ networks, calcOk n = true)
    (hc : w.convergeErr "/etc/network/interfaces" = none) :
    SetupManualNetworking cr w networks
      = if w.files.lookup "/etc/network/interfaces" = some (manualContent w paths networks)
        then ⟨w.files, [], [manualBroadcastAddresses (manualModified w paths networks)], none⟩
        else ⟨assocSet w.files "/etc/network/interfaces" (manualContent w paths networks),
              manualRestartCmds (manualModified w paths networks),
              [manualBroadcastAddresses (manualModified w paths networks)], none⟩ := by
  unfold SetupManualNetworking
  rw [writeNet_ok w networks paths hg hr hcalc hc]
  by_cases hl : w.files.lookup "/etc/network/interfaces" = some (manualContent w paths networks)
  · rw [if_pos hl, if_pos hl]
    rfl
  · rw [if_neg hl, if_neg hl]
    rfl

theorem writeNetStep3_err (w : World) (networks : List Network)
    (modified : List CustomNetwork)
    (h : (writeNetInterfacesStep3 w networks modified).err.isSome = true) :
    (writeNetInterfacesStep3 w networks modified).world = w := by
  unfold writeNetInterfacesStep3 at h ⊢
  cases hcv : convergeFileContents w "/etc/network/interfaces"
      (networkInterfacesConfig (networkInterfaceValuesFor modified networks)) with
  | mk w1 rest =>
    rw [hcv] at h
    cases rest with
    | mk written cerr =>
      cases cerr with
      | some e =>
        have hcw := converge_err_world w "/etc/network/interfaces"
          (networkInterfacesConfig (networkInterfaceValuesFor modified networks))
          (by rw [hcv]; rfl)
        rw [hcv] at hcw
        exact hcw
      | none =>
        exfalso
        simp at h

theorem writeNet_err_world (w : World) (networks : List Network)
    (h : (writeNetworkInterfaces w networks).err.isSome = true) :
    (writeNetworkInterfaces w networks).world = w := by
  cases hd : detectMacAddresses w with
  | mk inv derr =>
    cases derr with
    | some e =>
      have heq : writeNetworkInterfaces w networks
          = ⟨w, [], false, some ("Detecting mac addresses: " ++ e)⟩ := by
        unfold writeNetworkInterfaces
        rw [hd]
      rw [heq]
    | none =>
      have heq : writeNetworkInterfaces w networks
          = writeNetInterfacesStep2 w networks inv := by
        unfold writeNetworkInterfaces
        rw [hd]
      rw [heq] at h ⊢
      cases hrl : resolveNetworksLoop inv [] networks with
      | mk modified rerr =>
        cases rerr with
        | some e =>
          have heq2 : writeNetInterfacesStep2 w networks inv
              = ⟨w, modified, false, some e⟩ := by
            unfold writeNetInterfacesStep2
            rw [hrl]
          rw [heq2]
        | none =>
          have heq2 : writeNetInterfacesStep2 w networks inv
              = writeNetInterfacesStep3 w networks modified := by
            unfold writeNetInterfacesStep2
            rw [hrl]
          rw [heq2] at h ⊢
          exact writeNetStep3_err w networks modified h

theorem setupManual_err (cr : CmdRunner) (w : World) (networks : List Network)
    (h : (SetupManualNetworking cr w networks).result.isSome = true) :
    (SetupManualNetworking cr w networks).cmds = []
      ∧ (SetupManualNetworking cr w networks).broadcasts = []
      ∧ (SetupManualNetworking cr w networks).files = w.files := by
  unfold SetupManualNetworking at h ⊢
  cases hw : writeNetworkInterfaces w networks with
  | mk w1 modified written err =>
    rw [hw] at h
    cases err with
    | some e =>
      have hw1 : w1 = w := by
        have hew := writeNet_err_world w networks (by rw [hw]; rfl)
        rw [hw] at hew
        exact hew
      refine ⟨rfl, rfl, ?_⟩
      simp only [hw1]
    | none =>
      exfalso
      cases written <;> simp at h

/-! ## Concrete fixtures for witnesses and counterexamples -/

/-- A benign enumeration: one physical interface, one loopback. -/
def sysPaths : List String :=
  ["/sys/class/net/eth0", "/sys/class/net/lo"]

/-- A fully healthy world over `sysPaths`. -/
def wGood : World :=
  { files := []
  , globNet := (sysPaths, none)
  , readFile := fun p =>
      if p = "/sys/class/net/eth0/address" then ("aa:bb:cc:dd:ee:ff\n", none)
      else if p = "/sys/class/net/lo/address" then ("00:00:00:00:00:00\n", none)
      else ("", some "no such file")
  , fileExists := fun p => p = "/sys/class/net/eth0/device"
  , convergeErr := fun _ => none
  , writeErr := fun _ => none }

/-- A desired network with no DNS servers and no declared gateway. -/
def netEmptyDns : Network :=
  { ip := "10.0.0.5", netmask := "255.255.255.0", gateway := ""
  , mac := "aa:bb:cc:dd:ee:ff", dns := [], defaults := ["dns"] }

/-- The spec's end-to-end example network, with two DNS servers. -/
def netDns2 : Network :=
  { ip := "10.0.0.5", netmask := "255.255.255.0", gateway := "10.0.0.1"
  , mac := "aa:bb:cc:dd:ee:ff", dns := ["8.8.8.8", "1.1.1.1"], defaults := ["dns"] }

/-- A command runner whose every command succeeds. -/
def noFail : CmdRunner := fun _ _ => none

/-- A command runner whose every command fails. -/
def allFail : CmdRunner := fun _ _ => some "exit status 1"

/-- Two physical interfaces; `eth1` carries the spec's example MAC. -/
def wTwoNics : World :=
  { files := []
  , globNet := (["/sys/class/net/eth0", "/sys/class/net/eth1"], none)
  , readFile := fun p =>
      if p = "/sys/class/net/eth0/address" then ("11:22:33:44:55:66\n", none)
      else if p = "/sys/class/net/eth1/address" then ("aa:bb:cc:dd:ee:ff\n", none)
      else ("", some "no such file")
  , fileExists := fun _ => true
  , convergeErr := fun _ => none
  , writeErr := fun _ => none }

/-- A network whose MAC matches no inventory entry. -/
def netUnmatched : Network :=
  { ip := "10.0.0.6", netmask := "255.255.255.0", gateway := ""
  , mac := "ff:ff:ff:ff:ff:ff", dns := [], defaults := [] }

/-- Two enumerated interfaces reporting the same hardware address. -/
def wDup : World :=
  { files := []
  , globNet := (["/sys/class/net/eth0", "/sys/class/net/eth1"], none)
  , readFile := fun _ => ("aa:aa:aa:aa:aa:aa\n", none)
  , fileExists := fun _ => true
  , convergeErr := fun _ => none
  , writeErr := fun _ => none }

/-- The first address read succeeds, the second fails. -/
def wReadFail : World :=
  { files := []
  , globNet := (["/sys/class/net/eth0", "/sys/class/net/eth1"], none)
  , readFile := fun p =>
      if p = "/sys/class/net/eth0/address" then ("aa:bb:cc:dd:ee:ff\n", none)
      else ("", some "read failure")
  , fileExists := fun _ => true
  , convergeErr := fun _ => none
  , writeErr := fun _ => none }

/-- Converging the DHCP directive file fails; everything else is healthy. -/
def wFailDhclient : World :=
  { files := []
  , globNet := (["/sys/class/net/eth0"], none)
  , readFile := fun _ => ("aa:bb:cc:dd:ee:ff\n", none)
  , fileExists := fun _ => true
  , convergeErr := fun p => if p = "/etc/dhcp/dhclient.conf" then some "disk full" else none
  , writeErr := fun _ => none }

/-! ## C6 -/

/-- C6: `detectNetworkInterfaces` returns exactly the enumerated entries
that expose a device descriptor, in enumeration order, and skips every entry
without one. -/
theorem c6_detect_physical (w : World) (paths : List String)
    (hg : w.globNet = (paths, none)) :
    detectNetworkInterfaces w
      = ((paths.filter (hasDevice w)).map filepathBase, none) := by
  have h1 : detectNetworkInterfaces w = (detectNetworkInterfacesLoop w [] paths, none) := by
    unfold detectNetworkInterfaces
    rw [hg]
  rw [h1, detectLoop_eq, List.nil_append]

/-- C6 witness: of two interfaces where only `eth0` has a device descriptor,
detection returns exactly `eth0`. -/
theorem c6_witness :
    wGood.globNet = (sysPaths, none)
      ∧ detectNetworkInterfaces wGood = (["eth0"], none) :=
  ⟨rfl, (c6_detect_physical wGood sysPaths rfl).trans (by decide)⟩

/-! ## C10 -/

/-- C10: with a fully successful enumeration, the inventory maps each
hardware address to the interface enumerated last among those reporting it
(later entries overwrite earlier ones), and the inventory has at most as
many entries as there are enumerated interfaces (fewer when addresses
collide). -/
theorem c10_last_wins (w : World) (paths : List String) (mac : String)
    (hg : w.globNet = (paths, none))
    (hr : ∀ p ∈ paths, readOk w p = true) :
    detectMacAddresses w = (invOf w paths, none)
      ∧ (invOf w paths).lookup mac
          = (paths.reverse.find? (fun p => macOf w p == mac)).map filepathBase
      ∧ (invOf w paths).length ≤ paths.length := by
  refine ⟨detectMac_ok w paths hg hr, ?_, ?_⟩
  · rw [invOf, macFold_lookup]
    simp
  · have h := macFold_length w paths []
    simpa [invOf] using h

/-- C10 witness: two interfaces with the same address leave a one-entry
inventory pointing at the interface enumerated last. -/
theorem c10_witness :
    (∀ p ∈ ["/sys/class/net/eth0", "/sys/class/net/eth1"], readOk wDup p = true)
      ∧ (detectMacAddresses wDup).1.lookup "aa:aa:aa:aa:aa:aa" = some "eth1"
      ∧ (detectMacAddresses wDup).1.length < 2 := by
  have h := c10_last_wins wDup ["/sys/class/net/eth0", "/sys/class/net/eth1"]
    "aa:aa:aa:aa:aa:aa" rfl (by decide)
  refine ⟨by decide, ?_, ?_⟩
  · rw [h.1, h.2.1]
    decide
  · rw [h.1]
    decide

/-! ## C4 -/

/-- C4 counterexample: with one good and one failing address read, the call
returns an error, but the mapping accompanying the error is not empty — it
holds the entry processed before the failure, so "the mapping accompanying
the error contains no entries" is false as stated. -/
theorem c4_counterexample :
    ((detectMacAddresses wReadFail).2).isSome = true
      ∧ (detectMacAddresses wReadFail).1 = [("aa:bb:cc:dd:ee:ff", "eth0")] := by
  decide

/-- C4 amended: `detectMacAddresses` returns an error whenever the
enumeration glob fails or any enumerated entry's address read fails, and the
whole call aborts at the first failing entry; the mapping accompanying the
error holds exactly the entries processed before that failure — possibly
some, not none. -/
theorem c4_amended (w : World) :
    (∀ paths0 e, w.globNet = (paths0, some e) →
      (detectMacAddresses w).2.isSome = true ∧ (detectMacAddresses w).1 = [])
    ∧ (∀ paths, w.globNet = (paths, none) →
      ((detectMacAddresses w).2.isSome = true ↔ ∃ p ∈ paths, readOk w p = false)
        ∧ (detectMacAddresses w).1 = macFold w [] (paths.takeWhile (readOk w))) := by
  constructor
  · intro paths0 e hg
    unfold detectMacAddresses
    rw [hg]
    exact ⟨rfl, rfl⟩
  · intro paths hg
    have h1 : detectMacAddresses w = detectMacAddressesLoop w [] paths := by
      unfold detectMacAddresses
      rw [hg]
    rw [h1]
    constructor
    · rw [Option.isSome_iff_ne_none, ne_eq, macLoop_snd_none]
      push_neg
      constructor
      · rintro ⟨p, hp, hne⟩
        exact ⟨p, hp, by simpa using hne⟩
      · rintro ⟨p, hp, hfalse⟩
        exact ⟨p, hp, by simp [hfalse]⟩
    · exact macLoop_fst w paths []

/-- C4 witness for the amended claim, at the failing world. -/
theorem c4_witness :
    ((detectMacAddresses wReadFail).2.isSome = true
        ↔ ∃ p ∈ ["/sys/class/net/eth0", "/sys/class/net/eth1"], readOk wReadFail p = false)
      ∧ (detectMacAddresses wReadFail).1
          = macFold wReadFail []
              (["/sys/class/net/eth0", "/sys/class/net/eth1"].takeWhile (readOk wReadFail)) :=
  (c4_amended wReadFail).2 ["/sys/class/net/eth0", "/sys/class/net/eth1"] rfl

/-! ## C2 -/

theorem netBlock_gateway (c : CustomNetwork) (h : c.hasDefaultGateway = true) :
    strContains (netBlock c) "    gateway" = true := by
  have hform : netBlock c
      = ("\nauto " ++ c.interface ++ "\niface " ++ c.interface ++ " inet static\n    address "
          ++ c.network.ip ++ "\n    network " ++ c.networkIP ++ "\n    netmask "
          ++ c.network.netmask ++ "\n    broadcast " ++ c.broadcast ++ "\n")
        ++ ("    gateway " ++ c.network.gateway) := by
    unfold netBlock
    rw [h, if_pos rfl]
  rw [hform]
  unfold strContains
  rw [strData_append, strData_append]
  apply charsContain_append_left
  rw [strData_append]
  have hsplit : "    gateway ".data = "    gateway".data ++ " ".data := by decide
  rw [hsplit, List.append_assoc]
  exact charsContain_self _ _

/-- C2 counterexample: `netEmptyDns` declares no gateway (empty gateway
field), yet the rendered static interfaces file contains a gateway line —
the claimed "if and only if" fails in the only-if direction. -/
theorem c2_counterexample :
    netEmptyDns.gateway = ""
      ∧ (writeNetworkInterfaces wGood [netEmptyDns]).err = none
      ∧ strContains (((writeNetworkInterfaces wGood [netEmptyDns]).world.files.lookup
          "/etc/network/interfaces").getD "") "    gateway" = true := by
  decide

/-- C2 amended: the source sets the gateway-presence flag of every resolved
network to the literal `true` (line 164), so every rendered static block
contains a gateway line whether or not the network declares a gateway; with
no declared gateway the line carries an empty address. -/
theorem c2_amended (inv : List (String × String)) (networks : List Network)
    (c : CustomNetwork) (hc : c ∈ (resolveNetworksLoop inv [] networks).1) :
    c.hasDefaultGateway = true ∧ strContains (netBlock c) "    gateway" = true := by
  have hflag := resolveLoop_flag inv networks [] (by simp) c hc
  exact ⟨hflag, netBlock_gateway c hflag⟩

/-- The ResolvedNetwork built for `netEmptyDns` with an empty inventory. -/
def cEx : CustomNetwork :=
  ⟨netEmptyDns, "", "10.0.0.0", "10.0.0.255", true⟩

/-- C2 witness: the block rendered for a gateway-less network still carries
a gateway line. -/
theorem c2_witness :
    cEx ∈ (resolveNetworksLoop [] [] [netEmptyDns]).1
      ∧ cEx.hasDefaultGateway = true
      ∧ strContains (netBlock cEx) "    gateway" = true := by
  have hmem : cEx ∈ (resolveNetworksLoop [] [] [netEmptyDns]).1 := by decide
  exact ⟨hmem, c2_amended [] [netEmptyDns] cEx hmem⟩

/-! ## C1 -/

/-- C1 counterexample: with every DNS list empty, the rendered static
interfaces file still contains a `dns-nameservers` line (bare), because the
source sets the DNS flag unconditionally (line 177) — so "no DNS-related
directive or stanza appears in any rendered artifact" fails as stated. -/
theorem c1_counterexample :
    (∀ n ∈ [netEmptyDns], n.dns = ([] : List String))
      ∧ (writeNetworkInterfaces wGood [netEmptyDns]).err = none
      ∧ strContains (((writeNetworkInterfaces wGood [netEmptyDns]).world.files.lookup
          "/etc/network/interfaces").getD "") "dns-nameservers" = true := by
  decide

/-- C1 amended: with every DNS list empty, the DHCP directive file contains
no `prepend domain-name-servers` directive and the resolver file contains no
`nameserver` line; the static interfaces file, however, always contains a
(bare) `dns-nameservers` line, because the renderer's DNS flag is set
unconditionally. -/
theorem c1_amended (networks : List Network) (modified : List CustomNetwork)
    (hdns : ∀ n ∈ networks, n.dns = []) :
    strContains (dhclientContent networks) "prepend domain-name-servers" = false
      ∧ strContains (ubuntuResolvConf (defaultNetworkFor networks "dns").dns)
          "nameserver" = false
      ∧ strContains (networkInterfacesConfig (networkInterfaceValuesFor modified networks))
          "dns-nameservers" = true := by
  have hd : (defaultNetworkFor networks "dns").dns = [] := by
    unfold defaultNetworkFor
    cases hf : networks.find? (fun n => n.defaults.contains "dns") with
    | some n => exact hdns n (List.mem_of_find?_eq_some hf)
    | none => rfl
  refine ⟨?_, ?_, ?_⟩
  · unfold dhclientContent
    rw [hd]
    decide
  · rw [hd]
    decide
  · unfold networkInterfaceValuesFor
    rw [hd]
    have hform : networkInterfacesConfig ⟨modified, true, []⟩
        = ("# Generated by bosh-agent\nauto lo\niface lo inet loopback\n"
            ++ concatMapStr netBlock modified ++ "\n") ++ ("dns-nameservers" ++ "") := rfl
    rw [hform]
    unfold strContains
    rw [strData_append]
    apply charsContain_append_left
    have hdata : ("dns-nameservers" ++ "").data = "dns-nameservers".data ++ "".data := rfl
    rw [hdata]
    exact charsContain_self _ _

/-- C1 witness for the amended claim at a concrete empty-DNS network. -/
theorem c1_witness :
    (∀ n ∈ [netEmptyDns], n.dns = ([] : List String))
      ∧ strContains (dhclientContent [netEmptyDns]) "prepend domain-name-servers" = false
      ∧ strContains (ubuntuResolvConf (defaultNetworkFor [netEmptyDns] "dns").dns)
          "nameserver" = false
      ∧ strContains (networkInterfacesConfig (networkInterfaceValuesFor [] [netEmptyDns]))
          "dns-nameservers" = true := by
  have h := c1_amended [netEmptyDns] [] (by decide)
  exact ⟨by decide, h.1, h.2.1, h.2.2⟩

/-! ## C5 -/

/-- C5: a DNS server list `d0 :: rest` from the desired model is preserved
verbatim, in order and without deduplication, in every rendered artifact:
the DHCP directive file carries one `prepend domain-name-servers` directive
holding the comma-and-space join of the list, the resolver file carries one
`nameserver` line per server in input order, and the static interfaces file
carries one `dns-nameservers` line holding the space-joined list. -/
theorem c5_dns_order (cr : CmdRunner) (w : World) (networks : List Network)
    (paths : List String) (dns : List String) (d0 : String) (rest : List String)
    (hg : w.globNet = (paths, none))
    (hc1 : w.convergeErr "/etc/network/interfaces" = none)
    (hc2 : w.convergeErr "/etc/dhcp/dhclient.conf" = none)
    (hw : w.writeErr "/etc/resolv.conf" = none)
    (hdns : (defaultNetworkFor networks "dns").dns = dns)
    (hcons : dns = d0 :: rest) (hd0 : d0 ≠ "") :
    ((SetupDhcp cr w networks).files.lookup "/etc/dhcp/dhclient.conf"
        = some (ubuntuDHCPConfigPreamble
            ++ ("\nprepend domain-name-servers " ++ goJoin ", " dns ++ ";") ++ "\n"))
      ∧ ((writeResolvConf w networks).1.files.lookup "/etc/resolv.conf"
          = some ("# Generated by bosh-agent\n"
              ++ concatMapStr (fun d => "nameserver " ++ d ++ "\n") dns))
      ∧ (∀ modified : List CustomNetwork,
          networkInterfacesConfig (networkInterfaceValuesFor modified networks)
            = "# Generated by bosh-agent\nauto lo\niface lo inet loopback\n"
              ++ concatMapStr netBlock modified ++ "\n"
              ++ ("dns-nameservers" ++ concatMapStr (fun d => " " ++ d) dns)) := by
  have hne : ¬ goJoin ", " dns = "" := by
    rw [hcons]
    exact goJoin_ne_empty ", " d0 rest hd0
  have hcontent : dhclientContent networks
      = ubuntuDHCPConfigPreamble
          ++ ("\nprepend domain-name-servers " ++ goJoin ", " dns ++ ";") ++ "\n" := by
    unfold dhclientContent ubuntuDHCPConfig
    rw [hdns, if_neg hne]
  refine ⟨?_, ?_, ?_⟩
  · rw [setupDhcp_ok cr w networks paths hg hc1 hc2]
    by_cases hcond : (convergedFiles w.files "/etc/network/interfaces"
        (dhcpIfacesContent w paths)).lookup "/etc/dhcp/dhclient.conf"
          = some (dhclientContent networks)
    · rw [if_pos hcond]
      rw [← hcontent]
      exact hcond
    · rw [if_neg hcond]
      rw [← hcontent]
      exact lookup_assocSet_self _ _ _
  · unfold writeResolvConf writeFileTo
    rw [hw]
    rw [lookup_assocSet_self, hdns]
    rfl
  · intro modified
    unfold networkInterfaceValuesFor
    rw [hdns]
    rfl

/-- C5 witness: the two-server example, in order, through all three
artifacts. -/
theorem c5_witness :
    ((defaultNetworkFor [netDns2] "dns").dns = ["8.8.8.8", "1.1.1.1"])
      ∧ ((SetupDhcp noFail wGood [netDns2]).files.lookup "/etc/dhcp/dhclient.conf"
          = some (ubuntuDHCPConfigPreamble
              ++ ("\nprepend domain-name-servers "
                  ++ goJoin ", " ["8.8.8.8", "1.1.1.1"] ++ ";") ++ "\n"))
      ∧ ((writeResolvConf wGood [netDns2]).1.files.lookup "/etc/resolv.conf"
          = some ("# Generated by bosh-agent\n"
              ++ concatMapStr (fun d => "nameserver " ++ d ++ "\n") ["8.8.8.8", "1.1.1.1"])) := by
  have h := c5_dns_order noFail wGood [netDns2] sysPaths ["8.8.8.8", "1.1.1.1"]
    "8.8.8.8" ["1.1.1.1"] rfl rfl rfl rfl (by decide) rfl (by decide)
  exact ⟨by decide, h.1, h.2.1⟩

/-! ## C9 -/

/-- C9: in manual networking, every resolved interface name equals the
inventory entry for the spec's declared MAC when present and the empty
string when no entry matches; rendering still succeeds either way and the
converged interfaces file holds the rendered content. -/
theorem c9_mac_resolution (w : World) (networks : List Network) (paths : List String)
    (hg : w.globNet = (paths, none))
    (hr : ∀ p ∈ paths, readOk w p = true)
    (hcalc : ∀ n ∈ networks, calcOk n = true)
    (hc : w.convergeErr "/etc/network/interfaces" = none) :
    ((manualModified w paths networks).map (fun c => c.interface)
        = networks.map (fun n => ((invOf w paths).lookup n.mac).getD ""))
      ∧ (writeNetworkInterfaces w networks).err = none
      ∧ (writeNetworkInterfaces w networks).world.files.lookup "/etc/network/interfaces"
          = some (manualContent w paths networks) := by
  refine ⟨?_, ?_, ?_⟩
  · unfold manualModified
    rw [List.map_map]
    rfl
  · rw [writeNet_ok w networks paths hg hr hcalc hc]
    by_cases hl : w.files.lookup "/etc/network/interfaces"
        = some (manualContent w paths networks)
    · rw [if_pos hl]
    · rw [if_neg hl]
  · rw [writeNet_ok w networks paths hg hr hcalc hc]
    by_cases hl : w.files.lookup "/etc/network/interfaces"
        = some (manualContent w paths networks)
    · rw [if_pos hl]
      exact hl
    · rw [if_neg hl]
      exact lookup_assocSet_self _ _ _

/-- C9 witness: the spec's MAC resolves to `eth1`; an unmatched MAC resolves
to the empty interface name, and rendering still succeeds. -/
theorem c9_witness :
    ((manualModified wTwoNics ["/sys/class/net/eth0", "/sys/class/net/eth1"]
        [netDns2, netUnmatched]).map (fun c => c.interface) = ["eth1", ""])
      ∧ (writeNetworkInterfaces wTwoNics [netDns2, netUnmatched]).err = none := by
  have h := c9_mac_resolution wTwoNics [netDns2, netUnmatched]
    ["/sys/class/net/eth0", "/sys/class/net/eth1"] rfl (by decide) (by decide) rfl
  exact ⟨h.1.trans (by decide), h.2.1⟩

/-! ## C3 -/

/-- C3: in `SetupDhcp` the restart commands are issued exactly when the
converge of `/etc/dhcp/dhclient.conf` changed content — the condition
compares only the directive file's prior content with the newly rendered
directive content, so the converge of `/etc/network/interfaces` has no
effect on the restart decision; and a second call over the files the first
call produced converges identical content, issues no restart commands,
changes no files, and succeeds. -/
theorem c3_restart_iff (cr : CmdRunner) (w : World) (networks : List Network)
    (paths : List String)
    (hg : w.globNet = (paths, none))
    (hc1 : w.convergeErr "/etc/network/interfaces" = none)
    (hc2 : w.convergeErr "/etc/dhcp/dhclient.conf" = none) :
    ((SetupDhcp cr w networks).cmds
        = if w.files.lookup "/etc/dhcp/dhclient.conf" = some (dhclientContent networks)
          then [] else dhcpRestartCmds)
      ∧ (SetupDhcp cr w networks).result = none
      ∧ (SetupDhcp cr { w with files := (SetupDhcp cr w networks).files } networks).cmds = []
      ∧ (SetupDhcp cr { w with files := (SetupDhcp cr w networks).files } networks).result
          = none
      ∧ (SetupDhcp cr { w with files := (SetupDhcp cr w networks).files } networks).files
          = (SetupDhcp cr w networks).files := by
  have hOk := setupDhcp_ok cr w networks paths hg hc1 hc2
  have hF1d : (convergedFiles w.files "/etc/network/interfaces"
      (dhcpIfacesContent w paths)).lookup "/etc/dhcp/dhclient.conf"
        = w.files.lookup "/etc/dhcp/dhclient.conf" :=
    convergedFiles_lookup_ne _ _ _ _ (by decide)
  have hF1i : (convergedFiles w.files "/etc/network/interfaces"
      (dhcpIfacesContent w paths)).lookup "/etc/network/interfaces"
        = some (dhcpIfacesContent w paths) :=
    convergedFiles_lookup_self _ _ _
  by_cases hcond : w.files.lookup "/etc/dhcp/dhclient.conf" = some (dhclientContent networks)
  · have hfirst : SetupDhcp cr w networks
        = ⟨convergedFiles w.files "/etc/network/interfaces" (dhcpIfacesContent w paths),
            [], [["eth0"]], none⟩ := by
      rw [hOk, if_pos (hF1d.trans hcond)]
    have hOk2 : SetupDhcp cr
        ({ w with files := (convergedFiles w.files "/etc/network/interfaces"
            (dhcpIfacesContent w paths)) }) networks
        = (if (convergedFiles (convergedFiles w.files "/etc/network/interfaces"
                (dhcpIfacesContent w paths)) "/etc/network/interfaces"
                (dhcpIfacesContent w paths)).lookup "/etc/dhcp/dhclient.conf"
              = some (dhclientContent networks)
           then ⟨convergedFiles (convergedFiles w.files "/etc/network/interfaces"
                  (dhcpIfacesContent w paths)) "/etc/network/interfaces"
                  (dhcpIfacesContent w paths), [], [["eth0"]], none⟩
           else ⟨assocSet (convergedFiles (convergedFiles w.files "/etc/network/interfaces"
                  (dhcpIfacesContent w paths)) "/etc/network/interfaces"
                  (dhcpIfacesContent w paths)) "/etc/dhcp/dhclient.conf"
                  (dhclientContent networks), dhcpRestartCmds, [["eth0"]], none⟩) :=
      setupDhcp_ok cr ({ w with files := (convergedFiles w.files "/etc/network/interfaces"
        (dhcpIfacesContent w paths)) }) networks paths hg hc1 hc2
    have hconv2 : convergedFiles (convergedFiles w.files "/etc/network/interfaces"
        (dhcpIfacesContent w paths)) "/etc/network/interfaces" (dhcpIfacesContent w paths)
          = convergedFiles w.files "/etc/network/interfaces" (dhcpIfacesContent w paths) :=
      convergedFiles_already _ _ _ hF1i
    rw [hconv2] at hOk2
    have hsecond : SetupDhcp cr
        ({ w with files := (convergedFiles w.files "/etc/network/interfaces"
            (dhcpIfacesContent w paths)) }) networks
        = ⟨convergedFiles w.files "/etc/network/interfaces" (dhcpIfacesContent w paths),
            [], [["eth0"]], none⟩ := by
      rw [hOk2, if_pos (hF1d.trans hcond)]
    refine ⟨?_, ?_, ?_, ?_, ?_⟩
    · rw [hfirst, if_pos hcond]
    · rw [hfirst]
    · rw [hfirst]
      exact congrArg Outcome.cmds hsecond
    · rw [hfirst]
      exact congrArg Outcome.result hsecond
    · rw [hfirst]
      exact congrArg Outcome.files hsecond
  · have hfirst : SetupDhcp cr w networks
        = ⟨assocSet (convergedFiles w.files "/etc/network/interfaces"
            (dhcpIfacesContent w paths)) "/etc/dhcp/dhclient.conf" (dhclientContent networks),
            dhcpRestartCmds, [["eth0"]], none⟩ := by
      rw [hOk, if_neg (fun hx => hcond (hF1d.symm.trans hx))]
    have hOk2 : SetupDhcp cr
        ({ w with files := (assocSet (convergedFiles w.files "/etc/network/interfaces"
            (dhcpIfacesContent w paths)) "/etc/dhcp/dhclient.conf"
            (dhclientContent networks)) }) networks
        = (if (convergedFiles (assocSet (convergedFiles w.files "/etc/network/interfaces"
                (dhcpIfacesContent w paths)) "/etc/dhcp/dhclient.conf"
                (dhclientContent networks)) "/etc/network/interfaces"
                (dhcpIfacesContent w paths)).lookup "/etc/dhcp/dhclient.conf"
              = some (dhclientContent networks)
           then ⟨convergedFiles (assocSet (convergedFiles w.files "/etc/network/interfaces"
                  (dhcpIfacesContent w paths)) "/etc/dhcp/dhclient.conf"
                  (dhclientContent networks)) "/etc/network/interfaces"
                  (dhcpIfacesContent w paths), [], [["eth0"]], none⟩
           else ⟨assocSet (convergedFiles (assocSet (convergedFiles w.files
                  "/etc/network/interfaces" (dhcpIfacesContent w paths))
                  "/etc/dhcp/dhclient.conf" (dhclientContent networks))
                  "/etc/network/interfaces" (dhcpIfacesContent w paths))
                  "/etc/dhcp/dhclient.conf" (dhclientContent networks),
                  dhcpRestartCmds, [["eth0"]], none⟩) :=
      setupDhcp_ok cr ({ w with files := (assocSet (convergedFiles w.files
        "/etc/network/interfaces" (dhcpIfacesContent w paths)) "/etc/dhcp/dhclient.conf"
        (dhclientContent networks)) }) networks paths hg hc1 hc2
    have hFi : (assocSet (convergedFiles w.files "/etc/network/interfaces"
        (dhcpIfacesContent w paths)) "/etc/dhcp/dhclient.conf"
        (dhclientContent networks)).lookup "/etc/network/interfaces"
          = some (dhcpIfacesContent w paths) :=
      (lookup_assocSet_ne _ _ _ _ (by decide)).trans hF1i
    have hconv2 : convergedFiles (assocSet (convergedFiles w.files "/etc/network/interfaces"
        (dhcpIfacesContent w paths)) "/etc/dhcp/dhclient.conf" (dhclientContent networks))
        "/etc/network/interfaces" (dhcpIfacesContent w paths)
          = assocSet (convergedFiles w.files "/etc/network/interfaces"
              (dhcpIfacesContent w paths)) "/etc/dhcp/dhclient.conf"
              (dhclientContent networks) :=
      convergedFiles_already _ _ _ hFi
    rw [hconv2] at hOk2
    have hsecond : SetupDhcp cr
        ({ w with files := (assocSet (convergedFiles w.files "/etc/network/interfaces"
            (dhcpIfacesContent w paths)) "/etc/dhcp/dhclient.conf"
            (dhclientContent networks)) }) networks
        = ⟨assocSet (convergedFiles w.files "/etc/network/interfaces"
            (dhcpIfacesContent w paths)) "/etc/dhcp/dhclient.conf" (dhclientContent networks),
            [], [["eth0"]], none⟩ := by
      rw [hOk2, if_pos (lookup_assocSet_self _ _ _)]
    refine ⟨?_, ?_, ?_, ?_, ?_⟩
    · rw [hfirst, if_neg hcond]
    · rw [hfirst]
    · rw [hfirst]
      exact congrArg Outcome.cmds hsecond
    · rw [hfirst]
      exact congrArg Outcome.result hsecond
    · rw [hfirst]
      exact (congrArg Outcome.files hsecond).trans rfl

/-- C3 witness: over empty initial files the first call issues exactly the
restart commands, and the second call over the converged files issues
none. -/
theorem c3_witness :
    ¬ (wGood.files.lookup "/etc/dhcp/dhclient.conf" = some (dhclientContent [netDns2]))
      ∧ (SetupDhcp noFail wGood [netDns2]).cmds = dhcpRestartCmds
      ∧ (SetupDhcp noFail wGood [netDns2]).result = none
      ∧ (SetupDhcp noFail
          { wGood with files := (SetupDhcp noFail wGood [netDns2]).files } [netDns2]).cmds = []
      ∧ (SetupDhcp noFail
          { wGood with files := (SetupDhcp noFail wGood [netDns2]).files } [netDns2]).result
          = none := by
  have h := c3_restart_iff noFail wGood [netDns2] sysPaths rfl rfl rfl
  refine ⟨by decide, ?_, h.2.1, h.2.2.1, h.2.2.2.1⟩
  rw [h.1, if_neg (by decide)]

/-! ## C7 -/

/-- C7: the outcome of both entry points — final files, command trace,
broadcasts, and the returned error — is independent of the command runner's
failures: every restart-related command error is read and discarded, so a
run in which every command fails returns exactly what a run with no command
failures returns. -/
theorem c7_restart_failures_nonfatal (f g : CmdRunner) (w : World)
    (networks : List Network) :
    SetupDhcp f w networks = SetupDhcp g w networks
      ∧ SetupManualNetworking f w networks = SetupManualNetworking g w networks :=
  ⟨rfl, rfl⟩

/-! ## C8 -/

/-- C8: for both entry points, any returned error means the call aborted
before any restart command was run and before the address broadcaster was
invoked; the files are exactly those left by the steps that succeeded before
the failure — for `SetupDhcp` the state after the interfaces-file step (left
in place, no rollback), for `SetupManualNetworking` the original files,
since its only write is the failing one. -/
theorem c8_first_error_aborts (cr : CmdRunner) (w : World) (networks : List Network) :
    ((SetupDhcp cr w networks).result.isSome = true →
      (SetupDhcp cr w networks).cmds = [] ∧ (SetupDhcp cr w networks).broadcasts = []
        ∧ (SetupDhcp cr w networks).files = (writeDhcpNetworkInterfaces w).1.files)
      ∧ ((SetupManualNetworking cr w networks).result.isSome = true →
        (SetupManualNetworking cr w networks).cmds = []
          ∧ (SetupManualNetworking cr w networks).broadcasts = []
          ∧ (SetupManualNetworking cr w networks).files = w.files) :=
  ⟨setupDhcp_err cr w networks, setupManual_err cr w networks⟩

/-- C8 witness: with the directive-file converge failing, the call errors,
runs no command, broadcasts nothing — and the interfaces file written by the
earlier successful step is still in place. -/
theorem c8_witness :
    ((SetupDhcp noFail wFailDhclient []).result.isSome = true)
      ∧ (SetupDhcp noFail wFailDhclient []).cmds = []
      ∧ (SetupDhcp noFail wFailDhclient []).broadcasts = []
      ∧ ((writeDhcpNetworkInterfaces wFailDhclient).1.files.lookup
          "/etc/network/interfaces").isSome = true := by
  have h := (c8_first_error_aborts noFail wFailDhclient []).1 (by decide)
  exact ⟨by decide, h.1, h.2.1, by decide⟩

end UbuntuNet
